import Mathlib

/-!
Verification development for the LONGALANG cascade orchestrator (longa.py).

The Python program is shallowly embedded: the filesystem namestore is an
explicit association list from names to contents, every Python operation that
may raise is modelled as an Except-valued function, and each try/except of the
source appears as a match on that Except value.  The generated agents
(longa1.py, longa2.py, longamax.py, loadedmax.py) are embedded by functions
giving the semantics of the generated text when it is executed.
-/

namespace Longa

/-! ## Code Capture (get_clean_ascii_code, longa.py lines 9-24) -/

/-- Python single-character str.replace: every occurrence of the character
`pat` is replaced by the character list `rep`.  Models
`decoded_string.replace(..., ...)` at longa.py line 23, where both patterns
are single characters. -/
def strReplaceChar (pat : Char) (rep : List Char) : List Char → List Char
  | [] => []
  | c :: cs => (if c = pat then rep else [c]) ++ strReplaceChar pat rep cs

/-- Decimal digit character for the least significant digit of a number. -/
def decDigitChar (d : Nat) : Char := Char.ofNat (48 + d % 10)

/-- Fuelled most-significant-first decimal printer; the fuel argument only
bounds the recursion and is always sufficient at the call site below. -/
def decRun : Nat → Nat → List Char → List Char
  | 0, _, acc => acc
  | fuel + 1, n, acc =>
    let c := decDigitChar n
    let n2 := n / 10
    if n2 = 0 then c :: acc else decRun fuel n2 (c :: acc)

/-- Decimal representation of a natural number, as Python str(int) writes
it inside a numeric character reference. -/
def natDecimal (n : Nat) : List Char := decRun (n + 1) n []

/-- Python encode("ascii", errors="xmlcharrefreplace") on one character:
characters below 128 are kept, any other character becomes its decimal
numeric character reference. -/
def xmlCharRef (c : Char) : List Char :=
  if c.toNat < 128 then [c]
  else '&' :: '#' :: (natDecimal c.toNat ++ [';'])

/-- Em dash U+2014, the first pattern replaced at longa.py line 23. -/
def emDash : Char := Char.ofNat 8212

/-- En dash U+2013, the second pattern replaced at longa.py line 23. -/
def enDash : Char := Char.ofNat 8211

/-- Embedding of get_clean_ascii_code (longa.py lines 9-24) on the raw bytes
of the file.  Bytes are decoded with latin-1 (byte b becomes the character of
code point b; this decoding is total, so errors="replace" never fires), the
em and en dash replacements of line 23 are applied, and the result is encoded
to ASCII with xmlcharrefreplace and decoded back (the final decode of an
ASCII byte string is the identity). -/
def get_clean_ascii_code (raw_bytes : List Nat) : String :=
  let decoded := raw_bytes.map Char.ofNat
  let d1 := strReplaceChar emDash ['-', '-'] decoded
  let d2 := strReplaceChar enDash ['-'] d1
  String.mk (d2.flatMap xmlCharRef)

/-- Byte view of a string stored in the modelled filesystem: the list of its
character code points.  Used where longa.py opens a file in "rb" mode. -/
def strBytes (s : String) : List Nat := s.data.map Char.toNat

/-- UTF-8 encoding of one character (standard algorithm); used to build the
byte sequence of a source file that was saved as UTF-8, which is how every
agent of the repository writes its files (encoding="utf-8"). -/
def utf8EncodeChar (c : Char) : List Nat :=
  let n := c.toNat
  if n < 128 then [n]
  else if n < 2048 then [192 + n / 64, 128 + n % 64]
  else if n < 65536 then [224 + n / 4096, 128 + (n / 64) % 64, 128 + n % 64]
  else [240 + n / 262144, 128 + (n / 4096) % 64, 128 + (n / 64) % 64, 128 + n % 64]

/-- UTF-8 encoding of a string. -/
def utf8Encode (s : String) : List Nat := s.data.flatMap utf8EncodeChar

/-- Modelled from the spec: the round-trip property of section 8 promises
that capture output equals the original text "except for em/en dash
normalization".  This function performs exactly that normalization on a
text (em dash to two hyphens, en dash to one hyphen), so that the promise
can be compared with what get_clean_ascii_code actually produces. -/
def specNormalizeDashes (s : String) : String :=
  String.mk (strReplaceChar enDash ['-'] (strReplaceChar emDash ['-', '-'] s.data))

/-- Boolean ASCII test for a character. -/
def asciiChar (c : Char) : Bool := c.toNat < 128

/-! ## Filesystem namestore and raising primitives -/

/-- Error values of the modelled Python exceptions. -/
inductive PyErr where
  | osError
  | importError
deriving DecidableEq

/-- The shared filesystem namestore: named text artifacts, plus the set of
names whose deletion the operating system refuses (os.remove raises OSError
on them, e.g. the file is held open by another process). -/
structure FS where
  files : List (String × String)
  locked : List String
deriving DecidableEq

/-- Content of a named artifact, if it exists. -/
def FS.lookup (fs : FS) (n : String) : Option String := fs.files.lookup n

/-- Embedding of os.path.exists. -/
def FS.pathExists (fs : FS) (n : String) : Bool := (fs.lookup n).isSome

/-- Embedding of open(n, "w") followed by f.write(c): full replacement of the
artifact content (never a merge). -/
def FS.write (fs : FS) (n : String) (c : String) : FS :=
  ⟨(n, c) :: fs.files.filter (fun p => !(p.1 == n)), fs.locked⟩

/-- Removal of an entry, unconditionally (the state change os.remove makes
when it succeeds, and also what an external process deleting the file does). -/
def FS.erase (fs : FS) (n : String) : FS :=
  ⟨fs.files.filter (fun p => !(p.1 == n)), fs.locked⟩

/-- Embedding of os.remove: raises OSError when the file does not exist or
when the operating system refuses the deletion (the name is locked). -/
def FS.remove (fs : FS) (n : String) : Except PyErr FS :=
  if fs.pathExists n then
    if n ∈ fs.locked then .error .osError else .ok (fs.erase n)
  else .error .osError

/-! ## Observable events of one orchestrator run -/

/-- Trace events of one run.  Write events carry the content written, so that
overwrite effects are visible in the trace. -/
inductive Event where
  | cleanedUp (n : String)
  | cleanErr (n : String)
  | notFound (n : String)
  | wrote (n : String) (content : String)
  | loadOk
  | loadFail
  | execModule (n : String)
  | ranSupervised (n : String)
  | spawnedDetached (n : String)
  | tick (i : Nat)
  | selfDelOk (n : String)
  | selfDelErr (n : String)
deriving DecidableEq

/-- Event classifier: the three events the cleanup loop can log. -/
def isCleanEvent : Event → Bool
  | .cleanedUp _ => true
  | .cleanErr _ => true
  | .notFound _ => true
  | _ => false

/-- Event classifier: a write to the named artifact. -/
def isWriteTo (n : String) : Event → Bool
  | .wrote m _ => m == n
  | _ => false

/-- Event classifier: any form of execution of the named artifact (in-process
module execution, supervised child run, or detached spawn). -/
def isRunOf (n : String) : Event → Bool
  | .execModule m => m == n
  | .ranSupervised m => m == n
  | .spawnedDetached m => m == n
  | _ => false

/-- Event classifier: a detached spawn. -/
def isDetachedSpawn : Event → Bool
  | .spawnedDetached _ => true
  | _ => false

/-! ## Cleanup (clean_previous_run_artifacts, longa.py lines 26-48) -/

/-- The fixed list of artifact names cleaned on entry (longa.py lines 32-37),
in source order. -/
def cleanNames : List String := ["longa1.py", "longa2.py", "longamax.py", "loadedmax.py"]

/-- One iteration of the cleanup loop (longa.py lines 39-47): if the file
exists, os.remove is attempted and an OSError is caught and logged; a missing
file is logged as not found. -/
def cleanupOne (fs : FS) (n : String) : FS × Event :=
  if fs.pathExists n then
    match fs.remove n with
    | .ok fs2 => (fs2, .cleanedUp n)
    | .error _ => (fs, .cleanErr n)
  else (fs, .notFound n)

/-- The cleanup loop over a list of names, threading the filesystem. -/
def cleanupList (fs : FS) : List String → FS × List Event
  | [] => (fs, [])
  | n :: ns =>
    let r := cleanupOne fs n
    let rest := cleanupList r.1 ns
    (rest.1, r.2 :: rest.2)

/-- Embedding of clean_previous_run_artifacts (longa.py lines 26-48). -/
def clean_previous_run_artifacts (fs : FS) : FS × List Event :=
  cleanupList fs cleanNames

/-- Expected cleanup log entry for one name, read off the state at entry:
present and locked gives an error log, present and unlocked a removal log,
absent a not-found log. -/
def cleanupEventFor (fs : FS) (n : String) : Event :=
  if fs.pathExists n then
    (if n ∈ fs.locked then .cleanErr n else .cleanedUp n)
  else .notFound n

/-! ## Generated agent texts -/

/-- Single quote character, used to spell out generated Python text. -/
def sq : String := String.singleton (Char.ofNat 39)

/-- Exact content written to longa2.py on the success branch
(longa.py lines 112-114). -/
def longa2_content : String :=
  "# longa2.py created at second 3 after importing longa1.py\n"
    ++ "print(" ++ sq ++ "longa2.py has been created." ++ sq ++ ")\n"

/-- Text of the generated successor agent longa1.py (longa.py lines 64-82).
The source builds it as an f-string embedding the captured code; only the
header and the payload are kept here, because no claim depends on the literal
template text, and the behavior of the agent is modelled by successorRun. -/
def longa1_code (embedded : String) : String :=
  "# longa1.py\ncode = " ++ embedded ++ "\n"

/-- Text of the generated recovery agent longamax.py (longa.py lines
138-178).  As with longa1_code, only the payload is kept; the behavior of
the agent is modelled by recoveryARun. -/
def longamax_code (embedded : String) : String :=
  "# longamax.py\noriginal_longa_code_to_write = " ++ embedded ++ "\n"

/-- Text of the generated recovery agent loadedmax.py (longa.py lines
202-236), a fixed string; its behavior is modelled by recoveryBRun. -/
def loadedmax_code : String :=
  "# loadedmax.py\n"

/-! ## Agent semantics -/

/-- Guarded self-deletion, the pattern `try: os.remove(p) except OSError`
shared by every agent: the OSError is caught and logged, never re-raised. -/
def removeCatch (fs : FS) (n : String) : FS × Event :=
  match fs.remove n with
  | .ok fs2 => (fs2, .selfDelOk n)
  | .error _ => (fs, .selfDelErr n)

/-- Semantics of the generated longa1.py when executed (lines 64-82 of
longa.py describe its text): overwrite longa.py with the embedded code, then
self-destruct with a guarded os.remove. -/
def successorRun (embedded : String) (fs : FS) : FS × List Event :=
  let fs1 := fs.write "longa.py" embedded
  let r := removeCatch fs1 "longa1.py"
  (r.1, [Event.wrote "longa.py" embedded, r.2])

/-- Semantics of the generated longamax.py when executed (lines 138-178 of
longa.py describe its text): a three-tick countdown, overwrite longa.py with
the embedded code, guarded self-destruct, then a detached spawn of a fresh
orchestrator process as the final action. -/
def recoveryARun (embedded : String) (fs : FS) : FS × List Event :=
  let fs1 := fs.write "longa.py" embedded
  let r := removeCatch fs1 "longamax.py"
  (r.1, [Event.tick 3, Event.tick 2, Event.tick 1,
         Event.wrote "longa.py" embedded, r.2, Event.spawnedDetached "longa.py"])

/-- Semantics of the generated loadedmax.py when executed (lines 202-236 of
longa.py describe its text): if loadmax.py exists it is run supervised
(loadmax.py is the external interactive selector, out of scope; only the run
is recorded), otherwise a not-found log; then guarded self-destruct. -/
def recoveryBRun (fs : FS) : FS × List Event :=
  let runEvs := if fs.pathExists "loadmax.py" then [Event.ranSupervised "loadmax.py"]
                else [Event.notFound "loadmax.py"]
  let r := removeCatch fs "loadedmax.py"
  (r.1, runEvs ++ [r.2])

/-! ## Orchestrator main (longa.py lines 53-262) -/

/-- Environment of one run: the nondeterministic outcomes the orchestrator
cannot control.  longa1Survives is false when an external process (such as
delete1.py) removes the freshly written longa1.py before the existence check
of line 93; execOk is false when exec_module at line 99 raises (syntax fault,
I/O error, or a fault in the successor body before any effect). -/
structure Env where
  longa1Survives : Bool
  execOk : Bool
deriving DecidableEq

/-- Embedding of a raw read of a named file, as done by
get_clean_ascii_code(__file__): raises OSError when the file is missing.
This read is not guarded in the source, so its error propagates. -/
def readFile (fs : FS) (n : String) : Except PyErr String :=
  match fs.lookup n with
  | some c => .ok c
  | none => .error .osError

/-- The guarded dynamic load of longa1.py (longa.py lines 96-99): when
exec_module raises, the error is returned for the caller to catch; when it
completes, the successor has run in-process. -/
def attemptLoadLonga1 (env : Env) (embedded : String) (fs : FS) :
    Except PyErr (FS × List Event) :=
  if env.execOk then
    let s := successorRun embedded fs
    .ok (s.1, Event.execModule "longa1.py" :: s.2)
  else .error .importError

/-- The failure branch of the orchestrator (longa.py lines 128-261): capture
longa.py again, build and write longamax.py, run it supervised, build and
write loadedmax.py, run it supervised, then guarded self-deletion of
longa.py.  The second capture re-reads longa.py unguarded, so a missing
orchestrator artifact would propagate an error. -/
def failureBranch (cleanEvs : List Event) (embedded : String) (fs : FS) :
    Except PyErr (FS × List Event) :=
  match readFile fs "longa.py" with
  | .error e => .error e
  | .ok src2 =>
    let e2 := get_clean_ascii_code (strBytes src2)
    let fs5 := fs.write "longamax.py" (longamax_code e2)
    let a := recoveryARun e2 fs5
    let fs7 := a.1.write "loadedmax.py" loadedmax_code
    let b := recoveryBRun fs7
    let r2 := removeCatch b.1 "longa.py"
    .ok (r2.1,
      cleanEvs
        ++ [Event.wrote "longa1.py" (longa1_code embedded), Event.loadFail,
            Event.wrote "longamax.py" (longamax_code e2), Event.ranSupervised "longamax.py"]
        ++ a.2
        ++ [Event.wrote "loadedmax.py" loadedmax_code, Event.ranSupervised "loadedmax.py"]
        ++ b.2 ++ [r2.2])

/-- Embedding of the main block of longa.py (lines 53-262): cleanup, capture,
write of the successor, the guarded branch decision, and the two branches.
The write of longa1.py may be undone by an external deletion before the
existence check (env.longa1Survives); success of the branch decision requires
the file to exist and exec_module to complete. -/
def mainRun (env : Env) (fs0 : FS) : Except PyErr (FS × List Event) :=
  let c := clean_previous_run_artifacts fs0
  match readFile c.1 "longa.py" with
  | .error e => .error e
  | .ok src =>
    let embedded := get_clean_ascii_code (strBytes src)
    let fs2 := c.1.write "longa1.py" (longa1_code embedded)
    let fs3 := if env.longa1Survives then fs2 else fs2.erase "longa1.py"
    if fs3.pathExists "longa1.py" then
      match attemptLoadLonga1 env embedded fs3 with
      | .ok r =>
        let fs5 := r.1.write "longa2.py" longa2_content
        let r2 := removeCatch fs5 "longa.py"
        .ok (r2.1,
          c.2 ++ [Event.wrote "longa1.py" (longa1_code embedded)]
            ++ r.2
            ++ [Event.loadOk, Event.wrote "longa2.py" longa2_content, r2.2])
      | .error _ => failureBranch c.2 embedded fs3
    else failureBranch c.2 embedded fs3

/-- Predicate: the success branch ran (it is the only code that writes
longa2.py). -/
def successPathRan (tr : List Event) : Bool := tr.any (isWriteTo "longa2.py")

/-- Predicate: the failure branch ran (it is the only code that writes
longamax.py). -/
def failurePathRan (tr : List Event) : Bool := tr.any (isWriteTo "longamax.py")

/-! ## Named intermediate states and traces of the two branches

These definitions only name subterms of mainRun so that the normal-form
lemmas below stay readable; they introduce nothing beyond mainRun itself. -/

/-- Capture of the orchestrator source as mainRun performs it. -/
def captureOf (src : String) : String := get_clean_ascii_code (strBytes src)

/-- State after the successor wrote longa1.py and overwrote longa.py on the
success branch. -/
def successFS1 (fs : FS) (src : String) : FS :=
  (((clean_previous_run_artifacts fs).1.write "longa1.py"
      (longa1_code (captureOf src))).write "longa.py" (captureOf src))

/-- Guarded self-deletion of longa1.py by the successor. -/
def successR1 (fs : FS) (src : String) : FS × Event :=
  removeCatch (successFS1 fs src) "longa1.py"

/-- State after the marker longa2.py is written on the success branch. -/
def successFS2 (fs : FS) (src : String) : FS :=
  (successR1 fs src).1.write "longa2.py" longa2_content

/-- Final guarded self-deletion of longa.py on the success branch. -/
def successR2 (fs : FS) (src : String) : FS × Event :=
  removeCatch (successFS2 fs src) "longa.py"

/-- Full trace of a run whose load succeeds. -/
def successTrace (fs : FS) (src : String) : List Event :=
  (clean_previous_run_artifacts fs).2
    ++ [Event.wrote "longa1.py" (longa1_code (captureOf src)),
        Event.execModule "longa1.py",
        Event.wrote "longa.py" (captureOf src),
        (successR1 fs src).2,
        Event.loadOk,
        Event.wrote "longa2.py" longa2_content,
        (successR2 fs src).2]

/-- State at the branch decision on the failure side: longa1.py written and,
when env.longa1Survives is false, already deleted by the external watcher. -/
def failFS3 (env : Env) (fs : FS) (src : String) : FS :=
  if env.longa1Survives then
    (clean_previous_run_artifacts fs).1.write "longa1.py" (longa1_code (captureOf src))
  else
    ((clean_previous_run_artifacts fs).1.write "longa1.py"
      (longa1_code (captureOf src))).erase "longa1.py"

/-- State after longamax.py is written on the failure branch. -/
def failFS5 (env : Env) (fs : FS) (src : String) : FS :=
  (failFS3 env fs src).write "longamax.py" (longamax_code (captureOf src))

/-- State after Recovery-A overwrote longa.py. -/
def failFSA1 (env : Env) (fs : FS) (src : String) : FS :=
  (failFS5 env fs src).write "longa.py" (captureOf src)

/-- Guarded self-deletion of longamax.py by Recovery-A. -/
def failRA (env : Env) (fs : FS) (src : String) : FS × Event :=
  removeCatch (failFSA1 env fs src) "longamax.py"

/-- State after loadedmax.py is written on the failure branch. -/
def failFS7 (env : Env) (fs : FS) (src : String) : FS :=
  (failRA env fs src).1.write "loadedmax.py" loadedmax_code

/-- Run of Recovery-B on the failure branch. -/
def failB (env : Env) (fs : FS) (src : String) : FS × List Event :=
  recoveryBRun (failFS7 env fs src)

/-- Final guarded self-deletion of longa.py on the failure branch. -/
def failR2 (env : Env) (fs : FS) (src : String) : FS × Event :=
  removeCatch (failB env fs src).1 "longa.py"

/-- Full trace of a run whose load fails. -/
def failTrace (env : Env) (fs : FS) (src : String) : List Event :=
  (clean_previous_run_artifacts fs).2
    ++ [Event.wrote "longa1.py" (longa1_code (captureOf src)),
        Event.loadFail,
        Event.wrote "longamax.py" (longamax_code (captureOf src)),
        Event.ranSupervised "longamax.py",
        Event.tick 3, Event.tick 2, Event.tick 1,
        Event.wrote "longa.py" (captureOf src),
        (failRA env fs src).2,
        Event.spawnedDetached "longa.py",
        Event.wrote "loadedmax.py" loadedmax_code,
        Event.ranSupervised "loadedmax.py"]
    ++ (failB env fs src).2
    ++ [(failR2 env fs src).2]

/-- The complete event sequence of one Recovery-A supervised run, from its
launch to its final detached spawn of a fresh orchestrator. -/
def recoverySegA (e2 : String) : List Event :=
  [Event.ranSupervised "longamax.py", Event.tick 3, Event.tick 2, Event.tick 1,
   Event.wrote "longa.py" e2, Event.selfDelOk "longamax.py",
   Event.spawnedDetached "longa.py"]

/-! ## Concrete inputs for witnesses and counterexamples -/

/-- Concrete environment in which the load succeeds. -/
def okEnv : Env := ⟨true, true⟩

/-- Concrete environment in which longa1.py is deleted externally before the
existence check, so the load fails. -/
def failEnv : Env := ⟨false, false⟩

/-- Concrete starting filesystem: the orchestrator artifact with a small
ASCII body, plus the external selector loadmax.py; nothing is locked. -/
def wfs : FS := ⟨[("longa.py", "x"), ("loadmax.py", "y")], []⟩

/-! ## Filesystem lemmas -/

lemma lookup_filter_ne {n m : String} (h : ¬ n = m) :
    ∀ l : List (String × String),
      (l.filter (fun p => !(p.1 == m))).lookup n = l.lookup n := by
  intro l
  induction l with
  | nil => rfl
  | cons a l ih =>
    obtain ⟨k, v⟩ := a
    by_cases h1 : k = m
    · subst h1
      have hnm : (n == k) = false := beq_eq_false_iff_ne.mpr h
      simp [List.filter_cons, List.lookup, hnm, ih]
    · have hkm : (k == m) = false := beq_eq_false_iff_ne.mpr h1
      cases hnk : (n == k) with
      | true => simp [List.filter_cons, hkm, List.lookup, hnk]
      | false => simp [List.filter_cons, hkm, List.lookup, hnk, ih]

lemma lookup_filter_self (m : String) :
    ∀ l : List (String × String),
      (l.filter (fun p => !(p.1 == m))).lookup m = none := by
  intro l
  induction l with
  | nil => rfl
  | cons a l ih =>
    obtain ⟨k, v⟩ := a
    by_cases h1 : k = m
    · subst h1
      simp [List.filter_cons, ih]
    · have hkm : (k == m) = false := beq_eq_false_iff_ne.mpr h1
      have hmk : (m == k) = false := beq_eq_false_iff_ne.mpr (fun he => h1 he.symm)
      simp [List.filter_cons, hkm, List.lookup, hmk, ih]

@[simp] lemma FS.locked_write (fs : FS) (n c : String) : (fs.write n c).locked = fs.locked := rfl

@[simp] lemma FS.locked_erase (fs : FS) (n : String) : (fs.erase n).locked = fs.locked := rfl

@[simp] lemma FS.lookup_write_self (fs : FS) (n c : String) :
    (fs.write n c).lookup n = some c := by
  simp [FS.write, FS.lookup, List.lookup]

@[simp] lemma FS.lookup_write_ne (fs : FS) {n m : String} (c : String) (h : ¬ n = m) :
    (fs.write m c).lookup n = fs.lookup n := by
  have h4 : (n == m) = false := beq_eq_false_iff_ne.mpr h
  simp [FS.write, FS.lookup, List.lookup, h4, lookup_filter_ne h]

@[simp] lemma FS.lookup_erase_self (fs : FS) (m : String) :
    (fs.erase m).lookup m = none := by
  simp [FS.erase, FS.lookup, lookup_filter_self]

@[simp] lemma FS.lookup_erase_ne (fs : FS) {n m : String} (h : ¬ n = m) :
    (fs.erase m).lookup n = fs.lookup n := by
  simp [FS.erase, FS.lookup, lookup_filter_ne h]

lemma removeCatch_eq (fs : FS) (n : String) :
    removeCatch fs n =
      if fs.pathExists n = true ∧ ¬ n ∈ fs.locked then (fs.erase n, .selfDelOk n)
      else (fs, .selfDelErr n) := by
  by_cases h1 : fs.pathExists n = true
  · by_cases h2 : n ∈ fs.locked <;> simp [removeCatch, FS.remove, h1, h2]
  · simp [removeCatch, FS.remove, h1]

lemma removeCatch_snd (fs : FS) (n : String) :
    (removeCatch fs n).2 = .selfDelOk n ∨ (removeCatch fs n).2 = .selfDelErr n := by
  rw [removeCatch_eq]
  split <;> simp

@[simp] lemma removeCatch_locked (fs : FS) (n : String) :
    ((removeCatch fs n).1).locked = fs.locked := by
  rw [removeCatch_eq]
  split <;> simp

lemma removeCatch_lookup_ne (fs : FS) {m n : String} (h : ¬ m = n) :
    ((removeCatch fs n).1).lookup m = fs.lookup m := by
  rw [removeCatch_eq]
  split <;> simp [FS.lookup_erase_ne _ h]

lemma removeCatch_of_ok (fs : FS) (n : String) (h1 : fs.pathExists n = true)
    (h2 : fs.locked = []) : removeCatch fs n = (fs.erase n, .selfDelOk n) := by
  rw [removeCatch_eq]
  simp [h1, h2]

/-! ## Cleanup lemmas -/

lemma cleanupOne_eq (fs : FS) (n : String) :
    cleanupOne fs n =
      (if fs.pathExists n = true then (if n ∈ fs.locked then fs else fs.erase n) else fs,
       cleanupEventFor fs n) := by
  by_cases h1 : fs.pathExists n = true
  · by_cases h2 : n ∈ fs.locked <;>
      simp [cleanupOne, FS.remove, cleanupEventFor, h1, h2]
  · simp [cleanupOne, FS.remove, cleanupEventFor, h1]

lemma cleanupOne_locked (fs : FS) (n : String) :
    ((cleanupOne fs n).1).locked = fs.locked := by
  rw [cleanupOne_eq]
  dsimp only
  split
  · split <;> simp
  · rfl

lemma cleanupOne_lookup_ne (fs : FS) {m n : String} (h : ¬ m = n) :
    ((cleanupOne fs n).1).lookup m = fs.lookup m := by
  rw [cleanupOne_eq]
  dsimp only
  split
  · split
    · rfl
    · simp [FS.lookup_erase_ne _ h]
  · rfl

lemma cleanupOne_lookup_self_nolock (fs : FS) (n : String) (h : fs.locked = []) :
    ((cleanupOne fs n).1).lookup n = none := by
  rw [cleanupOne_eq]
  dsimp only
  split
  · simp [h]
  · rename_i h1
    rw [FS.pathExists] at h1
    simpa using h1

lemma cleanupOne_lookup_none (fs : FS) {m : String} (n : String)
    (hm : fs.lookup m = none) : ((cleanupOne fs n).1).lookup m = none := by
  by_cases h : m = n
  · subst h
    rw [cleanupOne_eq]
    dsimp only
    split
    · split
      · exact hm
      · simp
    · exact hm
  · rw [cleanupOne_lookup_ne fs h]
    exact hm

lemma cleanupEventFor_cleanupOne (fs : FS) {m n : String} (h : ¬ m = n) :
    cleanupEventFor ((cleanupOne fs n).1) m = cleanupEventFor fs m := by
  simp [cleanupEventFor, FS.pathExists, cleanupOne_lookup_ne fs h, cleanupOne_locked]

lemma cleanupList_events :
    ∀ (ns : List String) (fs : FS), ns.Nodup →
      (cleanupList fs ns).2 = ns.map (cleanupEventFor fs)
  | [], _, _ => rfl
  | n :: ns, fs, h => by
    have hn : n ∉ ns := (List.nodup_cons.mp h).1
    have ht : ns.Nodup := (List.nodup_cons.mp h).2
    simp only [cleanupList, List.map]
    refine congrArg₂ (· :: ·) ?_ ?_
    · rw [cleanupOne_eq]
    · rw [cleanupList_events ns _ ht]
      exact List.map_congr_left fun m hm =>
        cleanupEventFor_cleanupOne fs (fun he => hn (he ▸ hm))

lemma cleanupList_locked :
    ∀ (ns : List String) (fs : FS), ((cleanupList fs ns).1).locked = fs.locked
  | [], _ => rfl
  | n :: ns, fs => by
    simp only [cleanupList]
    rw [cleanupList_locked ns _]
    exact cleanupOne_locked fs n

lemma cleanupList_lookup_not_mem :
    ∀ (ns : List String) (fs : FS) (m : String), m ∉ ns →
      ((cleanupList fs ns).1).lookup m = fs.lookup m
  | [], _, _, _ => rfl
  | n :: ns, fs, m, h => by
    have h1 : ¬ m = n := fun he => h (he ▸ List.mem_cons_self n ns)
    have h2 : m ∉ ns := fun hm => h (List.mem_cons_of_mem n hm)
    simp only [cleanupList]
    rw [cleanupList_lookup_not_mem ns _ m h2, cleanupOne_lookup_ne fs h1]

lemma cleanupList_lookup_none :
    ∀ (ns : List String) (fs : FS) (m : String), fs.lookup m = none →
      ((cleanupList fs ns).1).lookup m = none
  | [], _, _, hm => hm
  | n :: ns, fs, m, hm => by
    simp only [cleanupList]
    exact cleanupList_lookup_none ns _ m (cleanupOne_lookup_none fs n hm)

lemma cleanupList_lookup_mem_nolock :
    ∀ (ns : List String) (fs : FS) (m : String), fs.locked = [] → m ∈ ns →
      ((cleanupList fs ns).1).lookup m = none
  | [], _, _, _, hm => absurd hm (List.not_mem_nil _)
  | n :: ns, fs, m, hl, hm => by
    simp only [cleanupList]
    rcases List.mem_cons.mp hm with he | hm2
    · subst he
      exact cleanupList_lookup_none ns _ m (cleanupOne_lookup_self_nolock fs m hl)
    · exact cleanupList_lookup_mem_nolock ns _ m
        ((cleanupOne_locked fs n).trans hl) hm2

lemma clean_events (fs : FS) :
    (clean_previous_run_artifacts fs).2 = cleanNames.map (cleanupEventFor fs) :=
  cleanupList_events cleanNames fs (by decide)

lemma clean_locked (fs : FS) :
    ((clean_previous_run_artifacts fs).1).locked = fs.locked :=
  cleanupList_locked cleanNames fs

lemma clean_lookup_not_mem (fs : FS) {m : String} (h : m ∉ cleanNames) :
    ((clean_previous_run_artifacts fs).1).lookup m = fs.lookup m :=
  cleanupList_lookup_not_mem cleanNames fs m h

lemma clean_lookup_mem (fs : FS) {m : String} (hl : fs.locked = []) (h : m ∈ cleanNames) :
    ((clean_previous_run_artifacts fs).1).lookup m = none :=
  cleanupList_lookup_mem_nolock cleanNames fs m hl h

lemma clean_event_isClean (fs : FS) :
    ∀ e ∈ (clean_previous_run_artifacts fs).2, isCleanEvent e = true := by
  rw [clean_events]
  intro e he
  obtain ⟨n, _, rfl⟩ := List.mem_map.mp he
  unfold cleanupEventFor
  split
  · split <;> rfl
  · rfl

lemma isWriteTo_of_clean {e : Event} (n : String) (h : isCleanEvent e = true) :
    isWriteTo n e = false := by
  cases e <;> simp_all [isCleanEvent, isWriteTo]

lemma isRunOf_of_clean {e : Event} (n : String) (h : isCleanEvent e = true) :
    isRunOf n e = false := by
  cases e <;> simp_all [isCleanEvent, isRunOf]

lemma isDetachedSpawn_of_clean {e : Event} (h : isCleanEvent e = true) :
    isDetachedSpawn e = false := by
  cases e <;> simp_all [isCleanEvent, isDetachedSpawn]

lemma clean_any_isWriteTo (fs : FS) (n : String) :
    ((clean_previous_run_artifacts fs).2).any (isWriteTo n) = false := by
  rw [List.any_eq_false]
  intro e he
  rw [isWriteTo_of_clean n (clean_event_isClean fs e he)]
  simp

lemma loadOk_not_mem_clean (fs : FS) :
    Event.loadOk ∉ (clean_previous_run_artifacts fs).2 := by
  intro h
  have := clean_event_isClean fs _ h
  simp [isCleanEvent] at this

/-! ## Normal forms of mainRun on the two branches -/

lemma clean_lookup_longa (fs : FS) :
    ((clean_previous_run_artifacts fs).1).lookup "longa.py" = fs.lookup "longa.py" :=
  clean_lookup_not_mem fs (by decide)

lemma mainRun_tt_eq (fs : FS) (src : String) (h : fs.lookup "longa.py" = some src) :
    mainRun ⟨true, true⟩ fs = .ok ((successR2 fs src).1, successTrace fs src) := by
  have hc : ((clean_previous_run_artifacts fs).1).lookup "longa.py" = some src := by
    rw [clean_lookup_longa]; exact h
  have hex : (((clean_previous_run_artifacts fs).1.write "longa1.py"
      (longa1_code (captureOf src))).pathExists "longa1.py") = true := by
    simp [FS.pathExists]
  simp only [mainRun, readFile, hc, captureOf] at *
  simp [attemptLoadLonga1, successorRun, hex, successTrace, successR2, successFS2,
    successR1, successFS1, captureOf]

lemma mainRun_fail_eq (env : Env) (fs : FS) (src : String)
    (h : fs.lookup "longa.py" = some src)
    (hf : ¬ (env.longa1Survives = true ∧ env.execOk = true)) :
    mainRun env fs = .ok ((failR2 env fs src).1, failTrace env fs src) := by
  have hc : ((clean_previous_run_artifacts fs).1).lookup "longa.py" = some src := by
    rw [clean_lookup_longa]; exact h
  obtain ⟨s, e⟩ := env
  cases s
  · simp [mainRun, readFile, hc, failureBranch, FS.pathExists, failTrace, failR2,
      failB, failFS7, failRA, failFSA1, failFS5, failFS3, captureOf, recoveryARun]
  · cases e
    · simp [mainRun, readFile, hc, failureBranch, FS.pathExists, attemptLoadLonga1,
        failTrace, failR2, failB, failFS7, failRA, failFSA1, failFS5, failFS3,
        captureOf, recoveryARun]
    · exact absurd ⟨rfl, rfl⟩ hf

/-! ## Trace lemmas for the two branches -/

lemma recoveryBRun_eq (fs : FS) :
    recoveryBRun fs =
      ((removeCatch fs "loadedmax.py").1,
       (if fs.pathExists "loadmax.py" = true then [Event.ranSupervised "loadmax.py"]
        else [Event.notFound "loadmax.py"]) ++ [(removeCatch fs "loadedmax.py").2]) := rfl

lemma recoveryB_events (fs : FS) :
    ∀ e ∈ (recoveryBRun fs).2,
      e = Event.ranSupervised "loadmax.py" ∨ e = Event.notFound "loadmax.py"
        ∨ e = Event.selfDelOk "loadedmax.py" ∨ e = Event.selfDelErr "loadedmax.py" := by
  rw [recoveryBRun_eq]
  intro e he
  rcases removeCatch_snd fs "loadedmax.py" with hr | hr <;>
    (rw [hr] at he; split at he <;> simp_all <;> tauto)

lemma recoveryB_any_isWriteTo (fs : FS) (n : String) :
    ((recoveryBRun fs).2).any (isWriteTo n) = false := by
  rw [List.any_eq_false]
  intro e he
  rcases recoveryB_events fs e he with rfl | rfl | rfl | rfl <;> simp [isWriteTo]

lemma recoveryB_countP_detached (fs : FS) :
    ((recoveryBRun fs).2).countP isDetachedSpawn = 0 := by
  rw [List.countP_eq_zero]
  intro e he
  rcases recoveryB_events fs e he with rfl | rfl | rfl | rfl <;> simp [isDetachedSpawn]

lemma loadOk_not_mem_recoveryB (fs : FS) :
    Event.loadOk ∉ (recoveryBRun fs).2 := by
  intro h
  rcases recoveryB_events fs _ h with he | he | he | he <;> exact Event.noConfusion he

lemma recoveryB_no_run (fs : FS) (n : String)
    (h1 : ¬ ("loadmax.py" : String) = n) :
    ∀ e ∈ (recoveryBRun fs).2, isRunOf n e = false := by
  intro e he
  rcases recoveryB_events fs e he with rfl | rfl | rfl | rfl <;>
    simp [isRunOf, h1]

lemma clean_countP_detached (fs : FS) :
    ((clean_previous_run_artifacts fs).2).countP isDetachedSpawn = 0 := by
  rw [List.countP_eq_zero]
  intro e he
  rw [isDetachedSpawn_of_clean (clean_event_isClean fs e he)]
  simp

lemma successPathRan_successTrace (fs : FS) (src : String) :
    successPathRan (successTrace fs src) = true := by
  simp [successPathRan, successTrace, isWriteTo]

lemma failurePathRan_successTrace (fs : FS) (src : String) :
    failurePathRan (successTrace fs src) = false := by
  rcases removeCatch_snd (successFS1 fs src) "longa1.py" with hr1 | hr1 <;>
  rcases removeCatch_snd (successFS2 fs src) "longa.py" with hr2 | hr2 <;>
    simp [failurePathRan, successTrace, successR1, successR2, hr1, hr2,
      isWriteTo, clean_any_isWriteTo]

lemma loadOk_mem_successTrace (fs : FS) (src : String) :
    Event.loadOk ∈ successTrace fs src := by
  simp [successTrace]

lemma failurePathRan_failTrace (env : Env) (fs : FS) (src : String) :
    failurePathRan (failTrace env fs src) = true := by
  simp [failurePathRan, failTrace, isWriteTo]

lemma failB_any_isWriteTo (env : Env) (fs : FS) (src : String) (n : String) :
    ((failB env fs src).2).any (isWriteTo n) = false :=
  recoveryB_any_isWriteTo _ n

lemma successPathRan_failTrace (env : Env) (fs : FS) (src : String) :
    successPathRan (failTrace env fs src) = false := by
  rcases removeCatch_snd (failFSA1 env fs src) "longamax.py" with hr1 | hr1 <;>
  rcases removeCatch_snd (failB env fs src).1 "longa.py" with hr2 | hr2 <;>
    simp [successPathRan, failTrace, failRA, failR2, hr1, hr2, isWriteTo,
      clean_any_isWriteTo, failB_any_isWriteTo]

lemma loadOk_not_mem_failTrace (env : Env) (fs : FS) (src : String) :
    Event.loadOk ∉ failTrace env fs src := by
  intro hmem
  rw [failTrace, failRA] at hmem
  rcases List.mem_append.mp hmem with h3 | hlast
  · rcases List.mem_append.mp h3 with h2 | hfailB
    · rcases List.mem_append.mp h2 with hclean | hmid
      · exact loadOk_not_mem_clean fs hclean
      · rcases removeCatch_snd (failFSA1 env fs src) "longamax.py" with hr1 | hr1 <;>
          (rw [hr1] at hmid; simp at hmid)
    · rw [failB] at hfailB
      exact loadOk_not_mem_recoveryB _ hfailB
  · rcases removeCatch_snd (failB env fs src).1 "longa.py" with hr2 | hr2 <;>
      (rw [failR2, hr2] at hlast; simp at hlast)

/-! ## Capture lemmas -/

set_option maxRecDepth 8192 in
lemma toNat_ofNat_lt256 : ∀ b < 256, (Char.ofNat b).toNat = b := by decide

lemma decDigitChar_toNat_lt (d : Nat) : (decDigitChar d).toNat < 128 := by
  rw [decDigitChar, toNat_ofNat_lt256 _ (by omega : 48 + d % 10 < 256)]
  omega

lemma decRun_ascii :
    ∀ (fuel n : Nat) (acc : List Char), (∀ c ∈ acc, c.toNat < 128) →
      ∀ c ∈ decRun fuel n acc, c.toNat < 128
  | 0, _, _, hacc => hacc
  | fuel + 1, n, acc, hacc => by
    show ∀ c ∈ (if n / 10 = 0 then decDigitChar n :: acc
        else decRun fuel (n / 10) (decDigitChar n :: acc)), c.toNat < 128
    split
    · intro c hc
      rcases List.mem_cons.mp hc with rfl | hc2
      · exact decDigitChar_toNat_lt n
      · exact hacc _ hc2
    · refine decRun_ascii fuel _ _ ?_
      intro c hc
      rcases List.mem_cons.mp hc with rfl | hc2
      · exact decDigitChar_toNat_lt n
      · exact hacc _ hc2

lemma natDecimal_ascii (n : Nat) : ∀ c ∈ natDecimal n, c.toNat < 128 :=
  decRun_ascii (n + 1) n [] (by simp)

lemma xmlCharRef_ascii (c : Char) : ∀ x ∈ xmlCharRef c, x.toNat < 128 := by
  unfold xmlCharRef
  split
  · rename_i h
    intro x hx
    rw [List.mem_singleton.mp hx]
    exact h
  · intro x hx
    rcases List.mem_cons.mp hx with rfl | hx2
    · decide
    rcases List.mem_cons.mp hx2 with rfl | hx3
    · decide
    rcases List.mem_append.mp hx3 with hd | hs
    · exact natDecimal_ascii _ x hd
    · rw [List.mem_singleton.mp hs]
      decide

lemma get_clean_ascii_code_eq (bs : List Nat) :
    get_clean_ascii_code bs
      = String.mk ((strReplaceChar enDash ['-']
          (strReplaceChar emDash ['-', '-'] (bs.map Char.ofNat))).flatMap xmlCharRef) := rfl

lemma capture_ascii (bs : List Nat) :
    ∀ c ∈ (get_clean_ascii_code bs).data, c.toNat < 128 := by
  intro c hc
  have hc2 : c ∈ (strReplaceChar enDash ['-']
      (strReplaceChar emDash ['-', '-'] (bs.map Char.ofNat))).flatMap xmlCharRef := hc
  obtain ⟨a, _, hx⟩ := List.mem_flatMap.mp hc2
  exact xmlCharRef_ascii a c hx

lemma strReplaceChar_of_not_mem (pat : Char) (rep : List Char) :
    ∀ l : List Char, pat ∉ l → strReplaceChar pat rep l = l
  | [], _ => rfl
  | c :: l, h => by
    have h1 : ¬ c = pat := fun he => h (he ▸ List.mem_cons_self c l)
    simp [strReplaceChar, h1,
      strReplaceChar_of_not_mem pat rep l (fun hm => h (List.mem_cons_of_mem c hm))]

lemma flatMap_xmlCharRef_id :
    ∀ l : List Char, (∀ c ∈ l, c.toNat < 128) → l.flatMap xmlCharRef = l
  | [], _ => rfl
  | c :: l, h => by
    have hc : c.toNat < 128 := h c (List.mem_cons_self c l)
    simp [List.flatMap_cons, xmlCharRef, hc,
      flatMap_xmlCharRef_id l (fun x hx => h x (List.mem_cons_of_mem c hx))]

lemma map_ofNat_toNat (l : List Char) : (l.map Char.toNat).map Char.ofNat = l := by
  simp [List.map_map, Function.comp_def, Char.ofNat_toNat]

lemma capture_of_ascii (l : List Char) (h : ∀ c ∈ l, c.toNat < 128) :
    get_clean_ascii_code (l.map Char.toNat) = String.mk l := by
  rw [get_clean_ascii_code_eq, map_ofNat_toNat]
  have hem : emDash ∉ l := fun hm => absurd (h _ hm) (by decide)
  rw [strReplaceChar_of_not_mem _ _ l hem]
  have hen : enDash ∉ l := fun hm => absurd (h _ hm) (by decide)
  rw [strReplaceChar_of_not_mem _ _ l hen]
  rw [flatMap_xmlCharRef_id l h]

/-! ## Claims about Code Capture -/

/-- Claim C7: Code Capture is total over every input byte sequence (in this
embedding it is a total function by construction, the latin-1 decode alone
makes every byte meaningful), and its output consists exclusively of ASCII
characters, so it can be embedded as a quoted string literal in generated
source. -/
theorem capture_total_ascii (bs : List Nat) :
    ((get_clean_ascii_code bs).data.all asciiChar) = true := by
  rw [List.all_eq_true]
  intro c hc
  have := capture_ascii bs c hc
  simpa [asciiChar] using this

/-- Claim C9: Code Capture is idempotent: capturing the bytes of an already
captured text returns it unchanged, so regeneration cycles after the first
capture preserve the embedded source text. -/
theorem capture_idempotent (bs : List Nat) :
    get_clean_ascii_code (strBytes (get_clean_ascii_code bs))
      = get_clean_ascii_code bs := by
  rw [strBytes, capture_of_ascii _ (capture_ascii bs)]

/-- Claim C3, counterexample: for the byte sequence of a UTF-8 encoded em
dash, capture does not return the dash-normalized text (which would be two
hyphens) nor the original text; it returns the three numeric character
references of the individual latin-1 decoded bytes.  So the round-trip
equality "equal to S except for em/en dash normalization" fails. -/
theorem capture_roundtrip_counterexample :
    get_clean_ascii_code (utf8Encode (String.singleton emDash)) = "&#226;&#128;&#148;"
      ∧ get_clean_ascii_code (utf8Encode (String.singleton emDash))
          ≠ specNormalizeDashes (String.singleton emDash)
      ∧ get_clean_ascii_code (utf8Encode (String.singleton emDash))
          ≠ String.singleton emDash := by
  exact ⟨by decide, by decide, by decide⟩

/-- Claim C3, amended: for every byte sequence S, capture(S) equals the
latin-1 decoding of S with every non-ASCII character replaced by its decimal
numeric character reference; the em/en dash replacements never fire, because
latin-1 decoding only produces code points below 256.  In particular, when S
is pure ASCII, the embedded text read back is exactly S. -/
theorem capture_characterization (bs : List Nat) (h : ∀ b ∈ bs, b < 256) :
    get_clean_ascii_code bs = String.mk ((bs.map Char.ofNat).flatMap xmlCharRef)
      ∧ ((∀ b ∈ bs, b < 128) →
          get_clean_ascii_code bs = String.mk (bs.map Char.ofNat)) := by
  have hchars : ∀ c ∈ bs.map Char.ofNat, c.toNat < 256 := by
    intro c hc
    obtain ⟨b, hb, rfl⟩ := List.mem_map.mp hc
    rw [toNat_ofNat_lt256 b (h b hb)]
    exact h b hb
  have hem : emDash ∉ bs.map Char.ofNat := by
    intro hm
    have h1 : emDash.toNat < 256 := hchars _ hm
    exact absurd h1 (by decide)
  have hen : enDash ∉ bs.map Char.ofNat := by
    intro hm
    have h1 : enDash.toNat < 256 := hchars _ hm
    exact absurd h1 (by decide)
  have hmain : get_clean_ascii_code bs
      = String.mk ((bs.map Char.ofNat).flatMap xmlCharRef) := by
    rw [get_clean_ascii_code_eq, strReplaceChar_of_not_mem _ _ _ hem,
      strReplaceChar_of_not_mem _ _ _ hen]
  refine ⟨hmain, fun h128 => ?_⟩
  rw [hmain, flatMap_xmlCharRef_id]
  intro c hc
  obtain ⟨b, hb, rfl⟩ := List.mem_map.mp hc
  rw [toNat_ofNat_lt256 b (h b hb)]
  exact h128 b hb

/-- Claim C3, witness for the amended theorem at the byte sequence of one
ASCII letter followed by one latin-1 e-acute byte. -/
theorem capture_characterization_witness :
    get_clean_ascii_code [104, 233]
      = String.mk (([104, 233].map Char.ofNat).flatMap xmlCharRef) :=
  (capture_characterization [104, 233] (by decide)).1

/-! ## State-chasing lemmas for the final filesystem -/

lemma successFS1_locked (fs : FS) (src : String) (hl : fs.locked = []) :
    (successFS1 fs src).locked = [] := by
  simp [successFS1, clean_locked, hl]

lemma successR1_eq (fs : FS) (src : String) (hl : fs.locked = []) :
    successR1 fs src
      = ((successFS1 fs src).erase "longa1.py", Event.selfDelOk "longa1.py") := by
  rw [successR1]
  apply removeCatch_of_ok
  · simp [successFS1, FS.pathExists]
  · exact successFS1_locked fs src hl

lemma successFS2_lookup_longa (fs : FS) (src : String) (hl : fs.locked = []) :
    (successFS2 fs src).lookup "longa.py" = some (captureOf src) := by
  rw [successFS2, successR1_eq fs src hl]
  simp [successFS1]

lemma successFS2_locked (fs : FS) (src : String) (hl : fs.locked = []) :
    (successFS2 fs src).locked = [] := by
  rw [successFS2, successR1_eq fs src hl]
  simp [successFS1_locked fs src hl]

lemma successR2_eq (fs : FS) (src : String) (hl : fs.locked = []) :
    successR2 fs src
      = ((successFS2 fs src).erase "longa.py", Event.selfDelOk "longa.py") := by
  rw [successR2]
  apply removeCatch_of_ok
  · rw [FS.pathExists, successFS2_lookup_longa fs src hl]
    rfl
  · exact successFS2_locked fs src hl

lemma success_final_lookup_longa (fs : FS) (src : String) (hl : fs.locked = []) :
    ((successR2 fs src).1).lookup "longa.py" = none := by
  rw [successR2_eq fs src hl]
  simp

lemma success_final_lookup_longa1 (fs : FS) (src : String) (hl : fs.locked = []) :
    ((successR2 fs src).1).lookup "longa1.py" = none := by
  rw [successR2_eq fs src hl]
  simp [successFS2, successR1_eq fs src hl]

lemma success_final_lookup_untouched (fs : FS) (src : String) (hl : fs.locked = [])
    {n : String} (h1 : ¬ n = "longa.py") (h2 : ¬ n = "longa1.py")
    (h3 : ¬ n = "longa2.py") :
    ((successR2 fs src).1).lookup n
      = ((clean_previous_run_artifacts fs).1).lookup n := by
  rw [successR2_eq fs src hl]
  rw [FS.lookup_erase_ne _ h1, successFS2, FS.lookup_write_ne _ _ h3,
    successR1_eq fs src hl]
  dsimp only
  rw [FS.lookup_erase_ne _ h2, successFS1, FS.lookup_write_ne _ _ h1,
    FS.lookup_write_ne _ _ h2]

lemma no_run_longa2_successTrace (fs : FS) (src : String) :
    ∀ e ∈ successTrace fs src, isRunOf "longa2.py" e = false := by
  intro e he
  rw [successTrace] at he
  rcases List.mem_append.mp he with hclean | hitems
  · exact isRunOf_of_clean _ (clean_event_isClean fs e hclean)
  · rcases removeCatch_snd (successFS1 fs src) "longa1.py" with hr1 | hr1 <;>
    rcases removeCatch_snd (successFS2 fs src) "longa.py" with hr2 | hr2 <;>
      (rw [successR1, successR2] at hitems
       rw [hr1, hr2] at hitems
       simp only [List.mem_cons, List.not_mem_nil, or_false] at hitems
       rcases hitems with rfl | rfl | rfl | rfl | rfl | rfl | rfl <;> simp [isRunOf])

lemma successTrace_no_recovery_writes (fs : FS) (src : String) :
    ∀ e ∈ successTrace fs src,
      isWriteTo "longamax.py" e = false ∧ isWriteTo "loadedmax.py" e = false := by
  intro e he
  rw [successTrace] at he
  rcases List.mem_append.mp he with hclean | hitems
  · exact ⟨isWriteTo_of_clean _ (clean_event_isClean fs e hclean),
      isWriteTo_of_clean _ (clean_event_isClean fs e hclean)⟩
  · rcases removeCatch_snd (successFS1 fs src) "longa1.py" with hr1 | hr1 <;>
    rcases removeCatch_snd (successFS2 fs src) "longa.py" with hr2 | hr2 <;>
      (rw [successR1, successR2] at hitems
       rw [hr1, hr2] at hitems
       simp only [List.mem_cons, List.not_mem_nil, or_false] at hitems
       rcases hitems with rfl | rfl | rfl | rfl | rfl | rfl | rfl <;>
         exact ⟨by simp [isWriteTo], by simp [isWriteTo]⟩)

lemma failFS3_locked (env : Env) (fs : FS) (src : String) :
    (failFS3 env fs src).locked = fs.locked := by
  rw [failFS3]
  split <;> simp [clean_locked]

lemma failFSA1_locked (env : Env) (fs : FS) (src : String) :
    (failFSA1 env fs src).locked = fs.locked := by
  rw [failFSA1, failFS5]
  simp [failFS3_locked]

lemma failRA_eq (env : Env) (fs : FS) (src : String) (hl : fs.locked = []) :
    failRA env fs src
      = ((failFSA1 env fs src).erase "longamax.py", Event.selfDelOk "longamax.py") := by
  rw [failRA]
  apply removeCatch_of_ok
  · simp [failFSA1, failFS5, FS.pathExists]
  · rw [failFSA1_locked]
    exact hl

lemma failB_countP_detached (env : Env) (fs : FS) (src : String) :
    ((failB env fs src).2).countP isDetachedSpawn = 0 :=
  recoveryB_countP_detached _

/-! ## Claims about the orchestrator -/

/-- Claim C1: for every orchestrator invocation that reaches the branch
decision (the orchestrator artifact was readable at capture time, so the run
does not die before the branch), the run returns normally and exactly one of
the success path and the failure path executes to completion: the marker
write and the Recovery-A write are each emitted by exactly one branch. -/
theorem branch_exclusivity (env : Env) (fs : FS) (src : String)
    (h : fs.lookup "longa.py" = some src) :
    ∃ fsF tr, mainRun env fs = .ok (fsF, tr)
      ∧ ((successPathRan tr = true ∧ failurePathRan tr = false)
          ∨ (failurePathRan tr = true ∧ successPathRan tr = false)) := by
  by_cases he : env.longa1Survives = true ∧ env.execOk = true
  · obtain ⟨h1, h2⟩ := he
    have henv : env = ⟨true, true⟩ := by cases env; simp_all
    subst henv
    exact ⟨_, _, mainRun_tt_eq fs src h,
      Or.inl ⟨successPathRan_successTrace fs src, failurePathRan_successTrace fs src⟩⟩
  · exact ⟨_, _, mainRun_fail_eq env fs src h he,
      Or.inr ⟨failurePathRan_failTrace env fs src, successPathRan_failTrace env fs src⟩⟩

/-- Claim C1, witness: concrete run with a successful load on the concrete
starting filesystem. -/
theorem branch_exclusivity_witness :
    ∃ fsF tr, mainRun okEnv wfs = .ok (fsF, tr)
      ∧ ((successPathRan tr = true ∧ failurePathRan tr = false)
          ∨ (failurePathRan tr = true ∧ successPathRan tr = false)) :=
  branch_exclusivity okEnv wfs "x" (by decide)

/-- Claim C2: the branch decision is a single guarded in-process load of the
just-written successor: the run returns normally for every environment (so
no exception from the load step propagates out of the orchestrator), the
load completes without exception exactly when the successor artifact
survives and its execution raises nothing, and the success path is taken if
and only if the load completed without exception. -/
theorem branch_decision_guarded (env : Env) (fs : FS) (src : String)
    (h : fs.lookup "longa.py" = some src) :
    ∃ fsF tr, mainRun env fs = .ok (fsF, tr)
      ∧ (Event.loadOk ∈ tr ↔ (env.longa1Survives = true ∧ env.execOk = true))
      ∧ (successPathRan tr = true ↔ Event.loadOk ∈ tr) := by
  by_cases he : env.longa1Survives = true ∧ env.execOk = true
  · obtain ⟨h1, h2⟩ := he
    have henv : env = ⟨true, true⟩ := by cases env; simp_all
    subst henv
    refine ⟨_, _, mainRun_tt_eq fs src h, ?_, ?_⟩
    · exact iff_of_true (loadOk_mem_successTrace fs src) ⟨rfl, rfl⟩
    · exact iff_of_true (successPathRan_successTrace fs src) (loadOk_mem_successTrace fs src)
  · refine ⟨_, _, mainRun_fail_eq env fs src h he, ?_, ?_⟩
    · exact iff_of_false (loadOk_not_mem_failTrace env fs src) he
    · refine iff_of_false ?_ (loadOk_not_mem_failTrace env fs src)
      rw [successPathRan_failTrace env fs src]
      simp

/-- Claim C2, witness: concrete run in which the successor artifact is
deleted externally, so the load fails and the failure path is taken. -/
theorem branch_decision_guarded_witness :
    ∃ fsF tr, mainRun failEnv wfs = .ok (fsF, tr)
      ∧ (Event.loadOk ∈ tr ↔ (failEnv.longa1Survives = true ∧ failEnv.execOk = true))
      ∧ (successPathRan tr = true ↔ Event.loadOk ∈ tr) :=
  branch_decision_guarded failEnv wfs "x" (by decide)

/-- Claim C8: the cleanup on entry attempts exactly the four fixed artifact
names longa1.py, longa2.py, longamax.py, loadedmax.py, logging one entry per
name in order: not found for a missing file, a caught error for a refused
deletion, a removal otherwise; it never raises (it is a total function whose
caught OSError values are visible as cleanErr events), and it touches no
other name. -/
theorem cleanup_contract (fs : FS) (n : String) (h : n ∉ cleanNames) :
    (clean_previous_run_artifacts fs).2 = cleanNames.map (cleanupEventFor fs)
      ∧ ((clean_previous_run_artifacts fs).1).lookup n = fs.lookup n
      ∧ ((clean_previous_run_artifacts fs).1).locked = fs.locked
      ∧ (∀ m ∈ cleanNames, fs.lookup m = none →
          Event.notFound m ∈ (clean_previous_run_artifacts fs).2) := by
  refine ⟨clean_events fs, clean_lookup_not_mem fs h, clean_locked fs, ?_⟩
  intro m hm hnone
  rw [clean_events]
  refine List.mem_map.mpr ⟨m, hm, ?_⟩
  rw [cleanupEventFor, FS.pathExists, hnone]
  rfl

/-- Claim C8, witness: cleanup on the concrete starting filesystem, where
all four names are absent, logs four not-found entries and leaves the
unrelated names untouched. -/
theorem cleanup_contract_witness :
    (clean_previous_run_artifacts wfs).2 = cleanNames.map (cleanupEventFor wfs)
      ∧ ((clean_previous_run_artifacts wfs).1).lookup "loadmax.py" = wfs.lookup "loadmax.py"
      ∧ ((clean_previous_run_artifacts wfs).1).locked = wfs.locked
      ∧ (∀ m ∈ cleanNames, wfs.lookup m = none →
          Event.notFound m ∈ (clean_previous_run_artifacts wfs).2) :=
  cleanup_contract wfs "loadmax.py" (by decide)

/-- Claim C4, counterexample: on a concrete nominal run whose load succeeds,
the orchestrator artifact does not exist at all after the run (the success
branch self-deletes it), so its content does not equal the captured
embedded source. -/
theorem success_effect_counterexample :
    (mainRun okEnv wfs).toOption.map (fun r => r.1.lookup "longa.py") = some none
      ∧ (mainRun okEnv wfs).toOption.map (fun r => r.1.lookup "longa.py")
          ≠ some (some (get_clean_ascii_code (strBytes "x"))) :=
  ⟨by decide, by decide⟩

/-- Claim C4, amended: if the load of the successor succeeds and the
deletions succeed, the successor overwrote the orchestrator artifact with
the embedded source captured just before the successor was written (visible
as a write event), but the orchestrator then self-deletes, so at the end of
the run the orchestrator artifact no longer exists, and neither does the
successor artifact. -/
theorem success_effect_amended (fs : FS) (src : String)
    (h : fs.lookup "longa.py" = some src) (hl : fs.locked = []) :
    ∃ fsF tr, mainRun ⟨true, true⟩ fs = .ok (fsF, tr)
      ∧ Event.wrote "longa.py" (captureOf src) ∈ tr
      ∧ fsF.lookup "longa1.py" = none
      ∧ fsF.lookup "longa.py" = none := by
  refine ⟨_, _, mainRun_tt_eq fs src h, ?_,
    success_final_lookup_longa1 fs src hl, success_final_lookup_longa fs src hl⟩
  simp [successTrace]

/-- Claim C4, witness for the amended theorem on the concrete starting
filesystem. -/
theorem success_effect_amended_witness :
    ∃ fsF tr, mainRun ⟨true, true⟩ wfs = .ok (fsF, tr)
      ∧ Event.wrote "longa.py" (captureOf "x") ∈ tr
      ∧ fsF.lookup "longa1.py" = none
      ∧ fsF.lookup "longa.py" = none :=
  success_effect_amended wfs "x" (by decide) (by decide)

/-- Claim C5: whenever the load fails (and the deletions succeed so that the
self-delete steps complete), the orchestrator runs Recovery-A to completion
before Recovery-B: the trace contains the complete Recovery-A segment, a
3-tick countdown, then the overwrite of the orchestrator artifact with the
captured embedded source, then the Recovery-A self-delete, with a single
detached spawn of a fresh orchestrator as its final action; Recovery-B runs
only after that segment, and the whole run contains exactly one detached
spawn. -/
theorem failure_recovery_sequence (env : Env) (fs : FS) (src : String)
    (h : fs.lookup "longa.py" = some src) (hl : fs.locked = [])
    (hf : ¬ (env.longa1Survives = true ∧ env.execOk = true)) :
    ∃ fsF pre suf,
      mainRun env fs = .ok (fsF, pre ++ recoverySegA (captureOf src) ++ suf)
        ∧ Event.ranSupervised "loadedmax.py" ∈ suf
        ∧ (∀ e ∈ pre, isRunOf "loadedmax.py" e = false)
        ∧ (pre ++ recoverySegA (captureOf src) ++ suf).countP isDetachedSpawn = 1 := by
  refine ⟨(failR2 env fs src).1,
    (clean_previous_run_artifacts fs).2
      ++ [Event.wrote "longa1.py" (longa1_code (captureOf src)), Event.loadFail,
          Event.wrote "longamax.py" (longamax_code (captureOf src))],
    [Event.wrote "loadedmax.py" loadedmax_code, Event.ranSupervised "loadedmax.py"]
      ++ (failB env fs src).2 ++ [(failR2 env fs src).2], ?_, ?_, ?_, ?_⟩
  · rw [mainRun_fail_eq env fs src h hf]
    rw [failTrace, recoverySegA, failRA_eq env fs src hl]
    simp
  · simp
  · intro e he
    rcases List.mem_append.mp he with hc | hm
    · exact isRunOf_of_clean _ (clean_event_isClean fs e hc)
    · simp only [List.mem_cons, List.not_mem_nil, or_false] at hm
      rcases hm with rfl | rfl | rfl <;> simp [isRunOf]
  · rcases removeCatch_snd (failB env fs src).1 "longa.py" with hr2 | hr2 <;>
      simp [List.countP_append, List.countP_cons, clean_countP_detached,
        recoverySegA, isDetachedSpawn, failB_countP_detached, failR2, hr2]

/-- Claim C5, witness: the concrete failing run on the concrete starting
filesystem. -/
theorem failure_recovery_sequence_witness :
    ∃ fsF pre suf,
      mainRun failEnv wfs = .ok (fsF, pre ++ recoverySegA (captureOf "x") ++ suf)
        ∧ Event.ranSupervised "loadedmax.py" ∈ suf
        ∧ (∀ e ∈ pre, isRunOf "loadedmax.py" e = false)
        ∧ (pre ++ recoverySegA (captureOf "x") ++ suf).countP isDetachedSpawn = 1 :=
  failure_recovery_sequence failEnv wfs "x" (by decide) (by decide) (by decide)

/-- Claim C6, counterexample: on a concrete run whose load succeeds, the
orchestrator writes the marker agent longa2.py but no event of the run
executes it in any form (no in-process execution, no supervised run, no
detached spawn), so the marker confirmation print is never produced by the
orchestrator run. -/
theorem marker_not_executed_counterexample :
    (mainRun okEnv wfs).toOption.map
        (fun r => (r.2.any (isWriteTo "longa2.py"), r.2.any (isRunOf "longa2.py")))
      = some (true, false) := by decide

/-- Claim C6, amended: on the success path the orchestrator builds and
writes the MARKER agent and then self-deletes its own artifact as the final
action, but it never executes the marker agent, so the marker confirmation
print is not produced during the orchestrator run. -/
theorem marker_written_not_executed (fs : FS) (src : String)
    (h : fs.lookup "longa.py" = some src) :
    ∃ fsF tr, mainRun ⟨true, true⟩ fs = .ok (fsF, tr)
      ∧ Event.wrote "longa2.py" longa2_content ∈ tr
      ∧ (∀ e ∈ tr, isRunOf "longa2.py" e = false)
      ∧ (∃ pre d, tr = pre ++ [d]
          ∧ (d = Event.selfDelOk "longa.py" ∨ d = Event.selfDelErr "longa.py")
          ∧ Event.wrote "longa2.py" longa2_content ∈ pre) := by
  refine ⟨_, _, mainRun_tt_eq fs src h, ?_, no_run_longa2_successTrace fs src, ?_⟩
  · simp [successTrace]
  · refine ⟨(clean_previous_run_artifacts fs).2
      ++ [Event.wrote "longa1.py" (longa1_code (captureOf src)),
          Event.execModule "longa1.py", Event.wrote "longa.py" (captureOf src),
          (successR1 fs src).2, Event.loadOk,
          Event.wrote "longa2.py" longa2_content],
      (successR2 fs src).2, ?_, ?_, ?_⟩
    · rw [successTrace]
      simp
    · exact removeCatch_snd (successFS2 fs src) "longa.py"
    · simp

/-- Claim C6, witness for the amended theorem on the concrete starting
filesystem. -/
theorem marker_written_not_executed_witness :
    ∃ fsF tr, mainRun ⟨true, true⟩ wfs = .ok (fsF, tr)
      ∧ Event.wrote "longa2.py" longa2_content ∈ tr
      ∧ (∀ e ∈ tr, isRunOf "longa2.py" e = false)
      ∧ (∃ pre d, tr = pre ++ [d]
          ∧ (d = Event.selfDelOk "longa.py" ∨ d = Event.selfDelErr "longa.py")
          ∧ Event.wrote "longa2.py" longa2_content ∈ pre) :=
  marker_written_not_executed wfs "x" (by decide)

/-- Claim C10: a run whose load succeeds (with deletions succeeding) never
writes the recovery artifacts: the final filesystem contains neither
longamax.py nor loadedmax.py (cleanup removed any leftover copies on entry),
and no event of the trace writes either name. -/
theorem success_no_recovery_artifacts (fs : FS) (src : String)
    (h : fs.lookup "longa.py" = some src) (hl : fs.locked = []) :
    ∃ fsF tr, mainRun ⟨true, true⟩ fs = .ok (fsF, tr)
      ∧ fsF.lookup "longamax.py" = none
      ∧ fsF.lookup "loadedmax.py" = none
      ∧ (∀ e ∈ tr,
          isWriteTo "longamax.py" e = false ∧ isWriteTo "loadedmax.py" e = false) := by
  refine ⟨_, _, mainRun_tt_eq fs src h, ?_, ?_, successTrace_no_recovery_writes fs src⟩
  · rw [success_final_lookup_untouched fs src hl (by decide) (by decide) (by decide)]
    exact clean_lookup_mem fs hl (by decide)
  · rw [success_final_lookup_untouched fs src hl (by decide) (by decide) (by decide)]
    exact clean_lookup_mem fs hl (by decide)

/-- Claim C10, witness on the concrete starting filesystem. -/
theorem success_no_recovery_artifacts_witness :
    ∃ fsF tr, mainRun ⟨true, true⟩ wfs = .ok (fsF, tr)
      ∧ fsF.lookup "longamax.py" = none
      ∧ fsF.lookup "loadedmax.py" = none
      ∧ (∀ e ∈ tr,
          isWriteTo "longamax.py" e = false ∧ isWriteTo "loadedmax.py" e = false) :=
  success_no_recovery_artifacts wfs "x" (by decide) (by decide)

end Longa
